import Mathlib

/-!
Verification of the judge-task dispatch core (`libs/judger.js`).

The development shallowly embeds the module's data model and handlers:
the redis-backed priority queue (`push` / `poll`), the per-connection
session state (`pendingAckTaskObj`, `waitingForTask`), the `waitForTask`,
`disconnect`, `reportProgress` and `reportResult` handlers, and the
`judge` submission builder.  External collaborators (the result converter,
the socket-io progress pusher, winston logging, the ORM record store and
the answer-file reader) are modelled as explicit parameters or as emitted
`Event` values, so each handler is a pure function from inputs and state
to new state plus the list of external effects it performs, in order.
-/

namespace Judger

/-- Judge task kind, `enums.ProblemType` in the source. -/
inductive ProblemType
  | Standard
  | Interaction
  | AnswerSubmission
deriving DecidableEq, Repr

/-- The `param` object built by `judge`: the standard shape carries the
file-I/O names, the interaction shape does not. -/
inductive TaskParam
  | standardParam (language code : String) (timeLimit memoryLimit : Nat)
      (fileIOInput fileIOOutput : Option String)
  | interactionParam (language code : String) (timeLimit memoryLimit : Nat)
deriving DecidableEq, Repr

/-- The `content` object of a queued task. -/
structure TaskContent where
  taskId : String
  testData : String
  type : ProblemType
  priority : Int
  param : Option TaskParam
deriving DecidableEq, Repr

/-- A queued task: `content` plus optional raw answer-file bytes. -/
structure Task where
  content : TaskContent
  extraData : Option (List Nat)
deriving DecidableEq, Repr

/-- A queue entry as returned by `judgeQueue.poll`: the task and the
redis score it was stored under. -/
structure QueueEntry where
  data : Task
  priority : Int
deriving DecidableEq, Repr

/-- `judgeQueue.push`: insert an entry with the given score. -/
def push (q : List QueueEntry) (data : Task) (priority : Int) : List QueueEntry :=
  q ++ [⟨data, priority⟩]

/-- Helper for `poll`: select a maximal-priority entry, returning it and
the remaining entries. -/
def pollAux (best : QueueEntry) : List QueueEntry → QueueEntry × List QueueEntry
  | [] => (best, [])
  | e :: rest =>
    if best.priority < e.priority then
      let r := pollAux e rest
      (r.1, best :: r.2)
    else
      let r := pollAux best rest
      (r.1, e :: r.2)

/-- `judgeQueue.poll` (redis BZPOPMAX): remove and return a
highest-priority entry, or `none` when the queue is empty (timeout). -/
def poll : List QueueEntry → Option (QueueEntry × List QueueEntry)
  | [] => none
  | e :: rest => some (pollAux e rest)

theorem pollAux_cons_perm (l : List QueueEntry) : ∀ best : QueueEntry,
    (pollAux best l).1 ::ₘ ((pollAux best l).2 : Multiset QueueEntry)
      = best ::ₘ (l : Multiset QueueEntry) := by
  induction l with
  | nil => intro best; simp [pollAux]
  | cons e rest ih =>
    intro best
    by_cases h : best.priority < e.priority
    · simp only [pollAux, if_pos h, ← Multiset.cons_coe]
      rw [Multiset.cons_swap, ih e, Multiset.cons_swap]
    · simp only [pollAux, if_neg h, ← Multiset.cons_coe]
      rw [Multiset.cons_swap, ih best, Multiset.cons_swap]

theorem poll_perm (q : List QueueEntry) (entry : QueueEntry) (rest : List QueueEntry)
    (h : poll q = some (entry, rest)) :
    entry ::ₘ (rest : Multiset QueueEntry) = (q : Multiset QueueEntry) := by
  cases q with
  | nil => simp [poll] at h
  | cons e l =>
    simp only [poll, Option.some.injEq] at h
    have hp := pollAux_cons_perm l e
    rw [h] at hp
    simpa [Multiset.cons_coe] using hp

theorem poll_eq_none_iff (q : List QueueEntry) : poll q = none ↔ q = [] := by
  cases q <;> simp [poll]

/-- Per-connection closure state of the `connect` handler:
`pendingAckTaskObj` and `waitingForTask`. -/
structure Session where
  pendingAckTaskObj : Option QueueEntry
  waitingForTask : Bool
deriving DecidableEq, Repr

/-- An external effect performed by a handler, in emission order:
winston logging, the socket acknowledgement callback, the `onTask`
emission, calls into the socket-io progress pusher, and the ORM record
operations `save` / `updateRelatedInfo`.  `closeConnection` is emitted
by no handler: the module never closes a judge connection itself. -/
inductive Event
  | logInfo (msg : String)
  | logWarn (msg : String)
  | logVerbose (msg : String)
  | logError (msg : String)
  | ackWaitForTask
  | emitTask (task : Task)
  | pusherCreateTask (taskId : String)
  | pusherUpdateCompileStatus (taskId : String)
  | pusherUpdateProgress (taskId : String)
  | pusherUpdateResult (taskId : String)
  | pusherCleanupProgress (taskId : String)
  | saveRecord (taskId : String)
  | updateRelatedInfo (taskId : String)
  | closeConnection
deriving DecidableEq, Repr

/-- One test case inside a progress payload. -/
structure CaseDetail where
  status : Nat
deriving DecidableEq, Repr

/-- One subtask inside a progress payload. -/
structure SubtaskDetail where
  cases : List CaseDetail
deriving DecidableEq, Repr

/-- The `judge` member of a progress payload. -/
structure JudgeDetail where
  subtasks : List SubtaskDetail
deriving DecidableEq, Repr

/-- The msgpack-decoded `progress` payload attached to a report. -/
structure ProgressPayload where
  judge : JudgeDetail
deriving DecidableEq, Repr

/-- `isPending` from `getRunningTaskStatusString`: the two pending status
codes are `0` and `1`. -/
def isPending (status : Nat) : Bool :=
  status == 0 || status == 1

/-- One iteration of the nested case loop: bump the total, and bump the
finished count when the case is not pending.  The accumulator is
`(allFinished, allTotal)`. -/
def countCase (acc : Nat × Nat) (curr : CaseDetail) : Nat × Nat :=
  (if isPending curr.status then acc.1 else acc.1 + 1, acc.2 + 1)

/-- `getRunningTaskStatusString`: count finished and total cases over all
subtasks and render `Running finished/total`. -/
def getRunningTaskStatusString (result : ProgressPayload) : String :=
  let acc := result.judge.subtasks.foldl
    (fun a subtask => subtask.cases.foldl countCase a) (0, 0)
  "Running " ++ toString acc.1 ++ "/" ++ toString acc.2

/-- `interface.ProgressReportType`; `Other` stands for any numeric code
outside the five recognised values. -/
inductive ProgressReportType
  | Started
  | Compiled
  | Progress
  | Finished
  | Reported
  | Other (code : Nat)
deriving DecidableEq, Repr

/-- A `judgeStateCache` value: phase string plus converted numbers. -/
structure CacheEntry where
  result : String
  score : Int
  time : Nat
  memory : Nat
deriving DecidableEq, Repr

/-- The `judgeStateCache` map, newest binding first. -/
abbrev Cache : Type := List (String × CacheEntry)

/-- `judgeStateCache.set`. -/
def cacheSet (cache : Cache) (key : String) (value : CacheEntry) : Cache :=
  (key, value) :: cache

/-- `judgeStateCache.get` (also `getCachedJudgeState`). -/
def cacheGet (cache : Cache) (key : String) : Option CacheEntry :=
  ((cache : List (String × CacheEntry)).find? (fun p => p.1 == key)).map (fun p => p.2)

/-- `judgeStateCache.delete`. -/
def cacheDelete (cache : Cache) (key : String) : Cache :=
  (cache : List (String × CacheEntry)).filter (fun p => !(p.1 == key))

/-- The value produced by the external `judgeResult.convertResult`
collaborator; `result` stands for the converted result blob. -/
structure ConvertedResult where
  score : Int
  time : Nat
  memory : Nat
  statusString : String
  result : String
deriving DecidableEq, Repr

/-- The external result-conversion collaborator. -/
abbrev ConvertFun : Type := String → ProgressPayload → ConvertedResult

/-- A msgpack-decoded report message (`reportProgress` / `reportResult`). -/
structure ReportMessage where
  taskId : String
  type : ProgressReportType
  progress : ProgressPayload
deriving DecidableEq, Repr

/-- Milliseconds per spec time-unit (one second: the queue poll timeout
of 10 time-units is `10` in redis seconds). -/
def msPerTimeUnit : Nat := 1000

/-- The `setTimeout` delay before a finished task's cache entry is
deleted: `5000` ms in the source. -/
def cacheDeleteDelayMs : Nat := 5000

/-- State touched by `reportProgress`: the cache plus the pending
`setTimeout` cache-deletion timers `(taskId, delay in ms)`. -/
structure ProgressState where
  cache : Cache
  timers : List (String × Nat)
deriving DecidableEq, Repr

/-- The `reportProgress` socket handler. -/
def reportProgress (convertResult : ConvertFun) (cfgToken token : String)
    (msg : ReportMessage) (st : ProgressState) : ProgressState × List Event :=
  if token != cfgToken then
    (st, [Event.logWarn "reportProgress with invalid token"])
  else
    let base := [Event.logVerbose ("Got progress from progress exchange, id: " ++ msg.taskId)]
    if msg.type = ProgressReportType.Started then
      ({ st with cache := cacheSet st.cache msg.taskId ⟨"Compiling", 0, 0, 0⟩ },
       base ++ [Event.pusherCreateTask msg.taskId])
    else if msg.type = ProgressReportType.Compiled then
      (st, base ++ [Event.pusherUpdateCompileStatus msg.taskId])
    else if msg.type = ProgressReportType.Progress then
      let conv := convertResult msg.taskId msg.progress
      ({ st with
          cache := cacheSet st.cache msg.taskId
              ⟨getRunningTaskStatusString msg.progress, conv.score, conv.time, conv.memory⟩ },
       base ++ [Event.pusherUpdateProgress msg.taskId])
    else if msg.type = ProgressReportType.Finished then
      ({ st with timers := st.timers ++ [(msg.taskId, cacheDeleteDelayMs)] },
       base ++ [Event.pusherUpdateResult msg.taskId])
    else if msg.type = ProgressReportType.Reported then
      (st, base ++ [Event.pusherCleanupProgress msg.taskId])
    else
      (st, base)

/-- Firing a scheduled cache-deletion timer deletes the cache entry. -/
def fireCacheDelete (st : ProgressState) (taskId : String) : ProgressState :=
  { st with cache := cacheDelete st.cache taskId }

/-- The durable judge record (`judge_state` ORM entity), the fields the
module reads or writes. -/
structure JudgeRecord where
  score : Int
  pending : Bool
  status : String
  total_time : Nat
  max_memory : Nat
  result : String
  compilation : Option ProgressPayload
deriving DecidableEq, Repr

/-- The durable record store keyed by `task_id`, newest binding first. -/
abbrev RecordStore : Type := List (String × JudgeRecord)

/-- `JudgeState.findOne` by `task_id`. -/
def findOneRecord (records : RecordStore) (taskId : String) : Option JudgeRecord :=
  ((records : List (String × JudgeRecord)).find? (fun p => p.1 == taskId)).map (fun p => p.2)

/-- Persisting a mutated entity (`save`): the store now answers with the
new version for that `task_id`. -/
def setRecord (records : RecordStore) (taskId : String) (record : JudgeRecord) : RecordStore :=
  ((taskId, record) :: (records : List (String × JudgeRecord)) : List (String × JudgeRecord))

/-- The `reportResult` socket handler. -/
def reportResult (convertResult : ConvertFun) (cfgToken token : String)
    (msg : ReportMessage) (records : RecordStore) : RecordStore × List Event :=
  if token != cfgToken then
    (records, [Event.logWarn "reportResult with invalid token"])
  else
    let base := [Event.logVerbose ("Received report for task " ++ msg.taskId)]
    let judge_state := findOneRecord records msg.taskId
    if msg.type = ProgressReportType.Finished then
      let conv := convertResult msg.taskId msg.progress
      let evs := base ++ [Event.logVerbose ("Reporting report finished: " ++ msg.taskId),
                          Event.pusherCleanupProgress msg.taskId]
      match judge_state with
      | none => (records, evs)
      | some js =>
        (setRecord records msg.taskId
          { js with
            score := conv.score
            pending := false
            status := conv.statusString
            total_time := conv.time
            max_memory := conv.memory
            result := conv.result },
         evs ++ [Event.saveRecord msg.taskId, Event.updateRelatedInfo msg.taskId])
    else if msg.type = ProgressReportType.Compiled then
      match judge_state with
      | none => (records, base)
      | some js =>
        (setRecord records msg.taskId { js with compilation := some msg.progress },
         base ++ [Event.saveRecord msg.taskId])
    else
      (records, base ++ [Event.logError "Unsupported result type"])

/-- Result of the synchronous part of the `waitForTask` handler (up to
its first await): the new session, the emitted effects, and whether a
poll loop was started by this invocation. -/
structure WaitOutcome where
  session : Session
  events : List Event
  startsPollLoop : Bool
deriving DecidableEq, Repr

/-- The `waitForTask` handler entry: token check, then `ack()`, then the
duplicate-wait check, then `waitingForTask := true` and the poll loop. -/
def waitForTaskEntry (cfgToken token : String) (s : Session) : WaitOutcome :=
  if token != cfgToken then
    ⟨s, [Event.logWarn "waitForTask with invalid token"], false⟩
  else if s.waitingForTask then
    ⟨s, [Event.ackWaitForTask,
         Event.logVerbose "waitForTask but already waiting, ignoring"], false⟩
  else
    ⟨{ s with waitingForTask := true },
     [Event.ackWaitForTask, Event.logVerbose "waitForTask"], true⟩

/-- Continuation of the poll loop once `poll` has returned an entry:
if the socket is by now disconnected, re-push the entry; otherwise
record it as `pendingAckTaskObj` and emit `onTask`. -/
def deliverAfterPoll (disconnected : Bool) (s : Session)
    (entry : QueueEntry) (rest : List QueueEntry) :
    Session × List QueueEntry × List Event :=
  if disconnected then
    (s, push rest entry.data entry.priority,
     [Event.logVerbose "got task but disconnected re-pushing task to queue"])
  else
    ({ s with pendingAckTaskObj := some entry }, rest,
     [Event.emitTask entry.data])

/-- The `onTask` acknowledgement callback: clear `pendingAckTaskObj` and
leave the waiting state. -/
def ackDelivered (s : Session) : Session :=
  { s with pendingAckTaskObj := none, waitingForTask := false }

/-- The `disconnect` handler: when a task was sent but not acked, push
it back to the queue and clear `pendingAckTaskObj`. -/
def disconnectHandler (s : Session) (q : List QueueEntry) :
    Session × List QueueEntry × List Event :=
  match s.pendingAckTaskObj with
  | some obj =>
    ({ s with pendingAckTaskObj := none },
     push q obj.data obj.priority,
     [Event.logInfo "judge client disconnected",
      Event.logWarn "Re-pushing task to judge queue"])
  | none => (s, q, [Event.logInfo "judge client disconnected"])

/-- The two ways a dispatch attempt can end in a pre-ack disconnect:
the socket is observed disconnected right after `poll` returns, or it
disconnects after `onTask` was emitted but before the ack. -/
inductive PreAckDisconnect
  | beforeDelivery
  | afterDelivery
deriving DecidableEq, Repr

/-- Session of a fresh connection whose poll loop is running. -/
def freshSession : Session := ⟨none, true⟩

/-- One dispatch attempt that ends in a pre-ack disconnect: poll the
queue, then either requeue immediately (disconnect observed before
delivery) or deliver and let the `disconnect` handler requeue. -/
def dispatchAttemptDisconnected (k : PreAckDisconnect) (q : List QueueEntry) :
    List QueueEntry :=
  match poll q with
  | none => q
  | some (entry, rest) =>
    match k with
    | PreAckDisconnect.beforeDelivery =>
      (deliverAfterPoll true freshSession entry rest).2.1
    | PreAckDisconnect.afterDelivery =>
      let step := deliverAfterPoll false freshSession entry rest
      (disconnectHandler step.1 step.2.1).2.1

/-- A sequence of dispatch attempts, each ending in a pre-ack disconnect. -/
def dispatchAttempts (ks : List PreAckDisconnect) (q : List QueueEntry) :
    List QueueEntry :=
  ks.foldl (fun acc k => dispatchAttemptDisconnected k acc) q

/-- The fields of the pending evaluation (`judge_state` argument of
`judge`) that the builder reads. -/
structure SubmissionState where
  task_id : String
  language : String
  code : String
deriving DecidableEq, Repr

/-- The fields of the problem definition that the builder reads;
`type` is the raw string switched on by `judge`. -/
structure Problem where
  id : Nat
  type : String
  time_limit : Nat
  memory_limit : Nat
  file_io : Bool
  file_io_input_name : String
  file_io_output_name : String
deriving DecidableEq, Repr

/-- `module.exports.judge`: build the task for the problem type and push
it.  `readAnswerFile` stands for `fs.readFileAsync` on the resolved
answer path; its failure aborts the whole call before anything is
pushed. -/
def judge (readAnswerFile : String → Except String (List Nat))
    (judge_state : SubmissionState) (problem : Problem) (priority : Int)
    (q : List QueueEntry) : Except String (List QueueEntry) :=
  let finish := fun (type : ProblemType) (param : Option TaskParam)
      (extraData : Option (List Nat)) =>
    let content : TaskContent :=
      { taskId := judge_state.task_id
        testData := toString problem.id
        type := type
        priority := priority
        param := param }
    push q { content := content, extraData := extraData } priority
  if problem.type == "submit-answer" then
    match readAnswerFile judge_state.code with
    | Except.error e => Except.error e
    | Except.ok bytes =>
      Except.ok (finish ProblemType.AnswerSubmission none (some bytes))
  else if problem.type == "interaction" then
    Except.ok (finish ProblemType.Interaction
      (some (TaskParam.interactionParam judge_state.language judge_state.code
        problem.time_limit problem.memory_limit)) none)
  else
    Except.ok (finish ProblemType.Standard
      (some (TaskParam.standardParam judge_state.language judge_state.code
        problem.time_limit problem.memory_limit
        (if problem.file_io then some problem.file_io_input_name else none)
        (if problem.file_io then some problem.file_io_output_name else none))) none)

/-- Spec-side count of all cases over all subtasks of a payload. -/
def totalCaseCount (p : ProgressPayload) : Nat :=
  (p.judge.subtasks.map (fun s => s.cases.length)).sum

/-- Spec-side count of the cases whose status is not a pending code. -/
def finishedCaseCount (p : ProgressPayload) : Nat :=
  (p.judge.subtasks.map
    (fun s => (s.cases.filter (fun c => !(isPending c.status))).length)).sum

/-- Spec-side task type chosen for a problem-definition type string. -/
def problemTypeFor (ptype : String) : ProblemType :=
  if ptype == "submit-answer" then ProblemType.AnswerSubmission
  else if ptype == "interaction" then ProblemType.Interaction
  else ProblemType.Standard

/-- A concrete result converter used by concrete evaluations. -/
def sampleConvert : ConvertFun := fun _ _ => ⟨100, 42, 7, "Accepted", "blob"⟩

/-- A concrete payload with four cases of which three are finished
(statuses 2, 0, 3, 4 split over two subtasks). -/
def samplePayload : ProgressPayload :=
  ⟨⟨[⟨[⟨2⟩, ⟨0⟩]⟩, ⟨[⟨3⟩, ⟨4⟩]⟩]⟩⟩

/-- A concrete report message of the given type for task `task1`. -/
def sampleMsg (t : ProgressReportType) : ReportMessage :=
  ⟨"task1", t, samplePayload⟩

/-- A concrete empty progress state. -/
def emptyProgressState : ProgressState := ⟨[], []⟩

/-- A concrete durable record. -/
def sampleRecord : JudgeRecord :=
  ⟨0, true, "Waiting", 0, 0, "old", none⟩

/-- A concrete queue entry. -/
def sampleEntry : QueueEntry :=
  ⟨⟨⟨"task1", "1", ProblemType.Standard, 5, none⟩, none⟩, 5⟩

theorem coe_append_singleton (l : List QueueEntry) (e : QueueEntry) :
    ((l ++ [e] : List QueueEntry) : Multiset QueueEntry)
      = e ::ₘ (l : Multiset QueueEntry) := by
  rw [← Multiset.coe_add, Multiset.coe_singleton, add_comm, Multiset.singleton_add]

theorem dispatchAttempt_perm (k : PreAckDisconnect) (q : List QueueEntry) :
    ((dispatchAttemptDisconnected k q : List QueueEntry) : Multiset QueueEntry)
      = (q : Multiset QueueEntry) := by
  cases hpoll : poll q with
  | none => simp [dispatchAttemptDisconnected, hpoll]
  | some pr =>
    obtain ⟨entry, rest⟩ := pr
    have hperm := poll_perm q entry rest hpoll
    cases k <;>
      simp [dispatchAttemptDisconnected, hpoll, deliverAfterPoll, disconnectHandler,
        push, coe_append_singleton, hperm]

theorem dispatchAttempts_perm (ks : List PreAckDisconnect) (q : List QueueEntry) :
    ((dispatchAttempts ks q : List QueueEntry) : Multiset QueueEntry)
      = (q : Multiset QueueEntry) := by
  induction ks generalizing q with
  | nil => rfl
  | cons k ks ih =>
    have hstep : dispatchAttempts (k :: ks) q
        = dispatchAttempts ks (dispatchAttemptDisconnected k q) := rfl
    rw [hstep, ih, dispatchAttempt_perm]

/-- C1: a polled entry that is requeued — immediately because the socket is
observed already disconnected, or by the disconnect handler while it is
pending ack — is pushed back with identical payload and its original
priority; hence the queue is preserved as a multiset by any sequence of
dispatch attempts that all end in a pre-ack disconnect, and a task in the
queue is again available to poll, unchanged. -/
theorem requeue_preserves_task (q : List QueueEntry) (entry : QueueEntry)
    (rest : List QueueEntry) (s : Session) (ks : List PreAckDisconnect)
    (hpoll : poll q = some (entry, rest)) :
    (deliverAfterPoll true s entry rest).2.1 = rest ++ [entry]
    ∧ (∀ s2 : Session, s2.pendingAckTaskObj = some entry →
        ∀ q2 : List QueueEntry, (disconnectHandler s2 q2).2.1 = q2 ++ [entry])
    ∧ ((dispatchAttempts ks q : List QueueEntry) : Multiset QueueEntry)
        = (q : Multiset QueueEntry)
    ∧ entry ∈ dispatchAttempts ks q := by
  refine ⟨by simp [deliverAfterPoll, push], ?_, dispatchAttempts_perm ks q, ?_⟩
  · intro s2 h2 q2
    simp [disconnectHandler, h2, push]
  · have hq := dispatchAttempts_perm ks q
    have hm : entry ∈ (q : Multiset QueueEntry) := by
      rw [← poll_perm q entry rest hpoll]
      simp
    rw [← hq] at hm
    exact Multiset.mem_coe.mp hm

theorem requeue_preserves_task_witness :
    sampleEntry ∈ dispatchAttempts
      [PreAckDisconnect.beforeDelivery, PreAckDisconnect.afterDelivery]
      [sampleEntry] :=
  (requeue_preserves_task [sampleEntry] sampleEntry [] freshSession
    [PreAckDisconnect.beforeDelivery, PreAckDisconnect.afterDelivery] rfl).2.2.2

/-- C9: the disconnect handler requeues only when `pendingAckTaskObj` is set
and clears it in the same step, so a second disconnect on the resulting
session leaves the queue untouched, and a disconnect with no pending entry
pushes nothing. -/
theorem disconnect_requeues_at_most_once (s : Session) (q : List QueueEntry) :
    ((disconnectHandler s q).1).pendingAckTaskObj = none
    ∧ (disconnectHandler (disconnectHandler s q).1 (disconnectHandler s q).2.1).2.1
        = (disconnectHandler s q).2.1
    ∧ (s.pendingAckTaskObj = none → (disconnectHandler s q).2.1 = q) := by
  cases h : s.pendingAckTaskObj <;> simp [disconnectHandler, h]

theorem disconnect_requeues_at_most_once_witness :
    (disconnectHandler ⟨none, false⟩ [sampleEntry]).2.1 = [sampleEntry] :=
  (disconnect_requeues_at_most_once ⟨none, false⟩ [sampleEntry]).2.2 rfl

/-- C4 counterexample: a duplicate `waitForTask` with a valid token, sent
while the session is already waiting, is still acknowledged — `ack()` runs
before the duplicate-wait check — even though it starts no second poll
loop. -/
theorem duplicate_wait_still_acked :
    Event.ackWaitForTask ∈ (waitForTaskEntry "tok" "tok" ⟨none, true⟩).events
    ∧ (waitForTaskEntry "tok" "tok" ⟨none, true⟩).startsPollLoop = false := by
  decide

/-- C4 (amended): with a valid shared secret, a `waitForTask` arriving while
the session is already `WaitingForTask` is acknowledged but otherwise
ignored — the session is unchanged and no second poll loop starts — while a
`waitForTask` arriving when not waiting is acknowledged first (before any
task delivery) and puts the session into `WaitingForTask` with exactly one
poll loop started. -/
theorem wait_for_task_idempotent (cfgToken token : String) (s : Session)
    (hTok : token = cfgToken) :
    (s.waitingForTask = true →
      (waitForTaskEntry cfgToken token s).session = s
      ∧ (waitForTaskEntry cfgToken token s).startsPollLoop = false
      ∧ Event.ackWaitForTask ∈ (waitForTaskEntry cfgToken token s).events)
    ∧ (s.waitingForTask = false →
      (waitForTaskEntry cfgToken token s).session.waitingForTask = true
      ∧ (waitForTaskEntry cfgToken token s).session.pendingAckTaskObj
          = s.pendingAckTaskObj
      ∧ (waitForTaskEntry cfgToken token s).startsPollLoop = true
      ∧ (waitForTaskEntry cfgToken token s).events.head?
          = some Event.ackWaitForTask) := by
  subst hTok
  cases hw : s.waitingForTask <;> simp [waitForTaskEntry, hw]

theorem wait_for_task_idempotent_witness :
    (waitForTaskEntry "tok" "tok" ⟨none, true⟩).startsPollLoop = false
    ∧ (waitForTaskEntry "tok" "tok" ⟨none, false⟩).startsPollLoop = true :=
  ⟨((wait_for_task_idempotent "tok" "tok" ⟨none, true⟩ rfl).1 rfl).2.1,
   ((wait_for_task_idempotent "tok" "tok" ⟨none, false⟩ rfl).2 rfl).2.2.1⟩

/-- C7: any inbound `waitForTask`, `reportProgress` or `reportResult` whose
token does not match the configured secret only logs a warning: the
session, progress state and record store are unchanged, no poll loop
starts, and no acknowledgement or any other effect is emitted. -/
theorem invalid_token_dropped (cfgToken token : String) (s : Session)
    (st : ProgressState) (records : RecordStore) (msg : ReportMessage)
    (convertResult : ConvertFun) (hTok : token ≠ cfgToken) :
    (waitForTaskEntry cfgToken token s).session = s
    ∧ (waitForTaskEntry cfgToken token s).startsPollLoop = false
    ∧ (waitForTaskEntry cfgToken token s).events
        = [Event.logWarn "waitForTask with invalid token"]
    ∧ (reportProgress convertResult cfgToken token msg st).1 = st
    ∧ (reportProgress convertResult cfgToken token msg st).2
        = [Event.logWarn "reportProgress with invalid token"]
    ∧ (reportResult convertResult cfgToken token msg records).1 = records
    ∧ (reportResult convertResult cfgToken token msg records).2
        = [Event.logWarn "reportResult with invalid token"] := by
  have hb : (token != cfgToken) = true := by
    simp [bne_iff_ne, hTok]
  simp [waitForTaskEntry, reportProgress, reportResult, hb]

theorem invalid_token_dropped_witness :
    (waitForTaskEntry "tok" "bad" ⟨none, false⟩).session = (⟨none, false⟩ : Session)
    ∧ (reportResult sampleConvert "tok" "bad"
        (sampleMsg ProgressReportType.Finished) []).1 = ([] : RecordStore) :=
  ⟨(invalid_token_dropped "tok" "bad" ⟨none, false⟩ emptyProgressState []
      (sampleMsg ProgressReportType.Finished) sampleConvert (by decide)).1,
   (invalid_token_dropped "tok" "bad" ⟨none, false⟩ emptyProgressState []
      (sampleMsg ProgressReportType.Finished) sampleConvert (by decide)).2.2.2.2.2.1⟩

/-- C2 counterexample: a `Finished` result with a valid token for a task id
with no durable record still performs a side effect — the handler calls the
observer's `cleanupProgress` before it checks whether the record exists. -/
theorem finished_unknown_task_notifies_observer :
    findOneRecord ([] : RecordStore) "task1" = none
    ∧ Event.pusherCleanupProgress "task1"
        ∈ (reportResult sampleConvert "tok" "tok"
            (sampleMsg ProgressReportType.Finished) ([] : RecordStore)).2 := by
  decide

/-- C2 (amended): a `Finished` result with a valid token whose task id
matches no durable record leaves the record store unchanged — no record is
created or updated, nothing is saved or propagated, and no error is
raised — but the external observer is still notified once through
`cleanupProgress`, which runs before the missing-record check. -/
theorem finished_missing_record_no_mutation (convertResult : ConvertFun)
    (cfgToken token : String) (msg : ReportMessage) (records : RecordStore)
    (hTok : token = cfgToken) (hType : msg.type = ProgressReportType.Finished)
    (hMiss : findOneRecord records msg.taskId = none) :
    (reportResult convertResult cfgToken token msg records).1 = records
    ∧ (reportResult convertResult cfgToken token msg records).2
        = [Event.logVerbose ("Received report for task " ++ msg.taskId),
           Event.logVerbose ("Reporting report finished: " ++ msg.taskId),
           Event.pusherCleanupProgress msg.taskId]
    ∧ Event.saveRecord msg.taskId
        ∉ (reportResult convertResult cfgToken token msg records).2
    ∧ Event.updateRelatedInfo msg.taskId
        ∉ (reportResult convertResult cfgToken token msg records).2
    ∧ (∀ m : String, Event.logError m
        ∉ (reportResult convertResult cfgToken token msg records).2) := by
  subst hTok
  simp [reportResult, hType, hMiss]

theorem finished_missing_record_no_mutation_witness :
    (reportResult sampleConvert "tok" "tok"
      (sampleMsg ProgressReportType.Finished) ([] : RecordStore)).1
      = ([] : RecordStore) :=
  (finished_missing_record_no_mutation sampleConvert "tok" "tok"
    (sampleMsg ProgressReportType.Finished) [] rfl rfl rfl).1

/-- C6 counterexample: a progress-stream message of unrecognized type with a
valid token is dropped silently — the handler's if-chain has no else, so the
emitted effects hold no error log at all, against the claim that the message
is logged as an error. -/
theorem unknown_progress_type_silently_dropped :
    (reportProgress sampleConvert "tok" "tok"
        (sampleMsg (ProgressReportType.Other 99)) emptyProgressState).1
      = emptyProgressState
    ∧ (reportProgress sampleConvert "tok" "tok"
        (sampleMsg (ProgressReportType.Other 99)) emptyProgressState).2
      = [Event.logVerbose "Got progress from progress exchange, id: task1"] := by
  decide

/-- C6 (amended): a valid-token message of unrecognized type mutates no
state and leaves the connection open on both streams, but only the result
stream logs it as an error; the progress stream discards it silently with
no error log. -/
theorem unknown_type_discarded (convertResult : ConvertFun)
    (cfgToken token : String) (msg : ReportMessage) (st : ProgressState)
    (records : RecordStore) (code : Nat) (hTok : token = cfgToken)
    (hType : msg.type = ProgressReportType.Other code) :
    (reportProgress convertResult cfgToken token msg st).1 = st
    ∧ (reportProgress convertResult cfgToken token msg st).2
        = [Event.logVerbose ("Got progress from progress exchange, id: " ++ msg.taskId)]
    ∧ (reportResult convertResult cfgToken token msg records).1 = records
    ∧ (reportResult convertResult cfgToken token msg records).2
        = [Event.logVerbose ("Received report for task " ++ msg.taskId),
           Event.logError "Unsupported result type"]
    ∧ Event.closeConnection ∉ (reportProgress convertResult cfgToken token msg st).2
    ∧ Event.closeConnection ∉ (reportResult convertResult cfgToken token msg records).2 := by
  subst hTok
  simp [reportProgress, reportResult, hType]

theorem unknown_type_discarded_witness :
    (reportResult sampleConvert "tok" "tok"
        (sampleMsg (ProgressReportType.Other 99)) ([] : RecordStore)).1
      = ([] : RecordStore)
    ∧ (reportResult sampleConvert "tok" "tok"
        (sampleMsg (ProgressReportType.Other 99)) ([] : RecordStore)).2
      = [Event.logVerbose "Received report for task task1",
         Event.logError "Unsupported result type"] :=
  ⟨(unknown_type_discarded sampleConvert "tok" "tok"
      (sampleMsg (ProgressReportType.Other 99)) emptyProgressState [] 99 rfl rfl).2.2.1,
   (unknown_type_discarded sampleConvert "tok" "tok"
      (sampleMsg (ProgressReportType.Other 99)) emptyProgressState [] 99 rfl rfl).2.2.2.1⟩

theorem foldl_countCase_fst (cs : List CaseDetail) : ∀ a : Nat × Nat,
    (cs.foldl countCase a).1
      = a.1 + (cs.filter (fun c => !(isPending c.status))).length := by
  induction cs with
  | nil => intro a; simp
  | cons c rest ih =>
    intro a
    rw [List.foldl_cons, ih]
    by_cases h : isPending c.status
    · simp [countCase, h]
    · simp [countCase, h]
      omega

theorem foldl_countCase_snd (cs : List CaseDetail) : ∀ a : Nat × Nat,
    (cs.foldl countCase a).2 = a.2 + cs.length := by
  induction cs with
  | nil => intro a; simp
  | cons c rest ih =>
    intro a
    rw [List.foldl_cons, ih]
    by_cases h : isPending c.status <;> simp [countCase, h] <;> omega

theorem foldl_subtasks_fst (ss : List SubtaskDetail) : ∀ a : Nat × Nat,
    (ss.foldl (fun a subtask => subtask.cases.foldl countCase a) a).1
      = a.1 + (ss.map
          (fun s => (s.cases.filter (fun c => !(isPending c.status))).length)).sum := by
  induction ss with
  | nil => intro a; simp
  | cons s rest ih =>
    intro a
    rw [List.foldl_cons, ih, foldl_countCase_fst]
    simp
    omega

theorem foldl_subtasks_snd (ss : List SubtaskDetail) : ∀ a : Nat × Nat,
    (ss.foldl (fun a subtask => subtask.cases.foldl countCase a) a).2
      = a.2 + (ss.map (fun s => s.cases.length)).sum := by
  induction ss with
  | nil => intro a; simp
  | cons s rest ih =>
    intro a
    rw [List.foldl_cons, ih, foldl_countCase_snd]
    simp
    omega

theorem getRunningTaskStatusString_eq (p : ProgressPayload) :
    getRunningTaskStatusString p
      = "Running " ++ toString (finishedCaseCount p) ++ "/"
          ++ toString (totalCaseCount p) := by
  simp only [getRunningTaskStatusString, finishedCaseCount, totalCaseCount]
  rw [foldl_subtasks_fst, foldl_subtasks_snd]
  simp

/-- C3: a valid-token `Progress` message sets the cache entry for its task
id to the snapshot whose result string is `Running finished/total` — a case
counting as finished iff its status is neither of the pending codes 0 and
1 — and whose score, time and memory come from the external converter. -/
theorem progress_updates_cache (convertResult : ConvertFun)
    (cfgToken token : String) (msg : ReportMessage) (st : ProgressState)
    (hTok : token = cfgToken) (hType : msg.type = ProgressReportType.Progress) :
    cacheGet (reportProgress convertResult cfgToken token msg st).1.cache msg.taskId
      = some { result := "Running " ++ toString (finishedCaseCount msg.progress)
                 ++ "/" ++ toString (totalCaseCount msg.progress)
               score := (convertResult msg.taskId msg.progress).score
               time := (convertResult msg.taskId msg.progress).time
               memory := (convertResult msg.taskId msg.progress).memory } := by
  subst hTok
  simp [reportProgress, hType, cacheSet, cacheGet, getRunningTaskStatusString_eq]

theorem progress_updates_cache_witness :
    (cacheGet (reportProgress sampleConvert "tok" "tok"
        (sampleMsg ProgressReportType.Progress) emptyProgressState).1.cache
      (sampleMsg ProgressReportType.Progress).taskId).map CacheEntry.result
    = some "Running 3/4" := by
  rw [progress_updates_cache sampleConvert "tok" "tok"
    (sampleMsg ProgressReportType.Progress) emptyProgressState rfl rfl]
  decide

/-- C5: with a valid token, `Started` seeds the cache entry with the
zero-valued `Compiling` snapshot and touches no timer; `Finished` leaves the
cache unchanged and only schedules a deletion 5 time-units (5000 ms) later,
which removes the entry when it fires; `Reported` leaves the whole progress
state unchanged and only notifies the observer's cleanup. -/
theorem cache_lifecycle (convertResult : ConvertFun) (cfgToken token : String)
    (taskId : String) (p : ProgressPayload) (st : ProgressState)
    (hTok : token = cfgToken) :
    cacheGet (reportProgress convertResult cfgToken token
        ⟨taskId, ProgressReportType.Started, p⟩ st).1.cache taskId
      = some ⟨"Compiling", 0, 0, 0⟩
    ∧ (reportProgress convertResult cfgToken token
        ⟨taskId, ProgressReportType.Started, p⟩ st).1.timers = st.timers
    ∧ (reportProgress convertResult cfgToken token
        ⟨taskId, ProgressReportType.Finished, p⟩ st).1.cache = st.cache
    ∧ (reportProgress convertResult cfgToken token
        ⟨taskId, ProgressReportType.Finished, p⟩ st).1.timers
      = st.timers ++ [(taskId, 5 * msPerTimeUnit)]
    ∧ cacheGet (fireCacheDelete
        (reportProgress convertResult cfgToken token
          ⟨taskId, ProgressReportType.Finished, p⟩ st).1 taskId).cache taskId = none
    ∧ (reportProgress convertResult cfgToken token
        ⟨taskId, ProgressReportType.Reported, p⟩ st).1 = st
    ∧ (reportProgress convertResult cfgToken token
        ⟨taskId, ProgressReportType.Reported, p⟩ st).2
      = [Event.logVerbose ("Got progress from progress exchange, id: " ++ taskId),
         Event.pusherCleanupProgress taskId] := by
  subst hTok
  refine ⟨?_, ?_, ?_, ?_, ?_, ?_, ?_⟩
  · simp [reportProgress, cacheSet, cacheGet]
  · simp [reportProgress]
  · simp [reportProgress]
  · simp [reportProgress, cacheDeleteDelayMs, msPerTimeUnit]
  · have hc : (reportProgress convertResult token token
        ⟨taskId, ProgressReportType.Finished, p⟩ st).1.cache = st.cache := by
      simp [reportProgress]
    simp only [fireCacheDelete, cacheGet, cacheDelete, hc]
    rw [Option.map_eq_none', List.find?_eq_none]
    intro x hx
    have hm := List.mem_filter.mp hx
    simp only [Bool.not_eq_true'] at hm
    simp [hm.2]
  · simp [reportProgress]
  · simp [reportProgress]

theorem cache_lifecycle_witness :
    cacheGet (reportProgress sampleConvert "tok" "tok"
        ⟨"task1", ProgressReportType.Started, samplePayload⟩
        emptyProgressState).1.cache "task1"
      = some ⟨"Compiling", 0, 0, 0⟩
    ∧ (reportProgress sampleConvert "tok" "tok"
        ⟨"task1", ProgressReportType.Finished, samplePayload⟩
        emptyProgressState).1.timers = [("task1", 5 * msPerTimeUnit)] :=
  ⟨(cache_lifecycle sampleConvert "tok" "tok" "task1" samplePayload
      emptyProgressState rfl).1,
   (cache_lifecycle sampleConvert "tok" "tok" "task1" samplePayload
      emptyProgressState rfl).2.2.2.1⟩

/-- C10: a valid-token `Compiled` result with a matching durable record
updates only the record's `compilation` field — the record found afterwards
is the old record with `compilation` replaced — persists it with `save`,
and does not trigger `updateRelatedInfo`. -/
theorem compiled_updates_only_compilation (convertResult : ConvertFun)
    (cfgToken token : String) (msg : ReportMessage) (records : RecordStore)
    (js : JudgeRecord) (hTok : token = cfgToken)
    (hType : msg.type = ProgressReportType.Compiled)
    (hFound : findOneRecord records msg.taskId = some js) :
    findOneRecord (reportResult convertResult cfgToken token msg records).1 msg.taskId
      = some { js with compilation := some msg.progress }
    ∧ (reportResult convertResult cfgToken token msg records).2
        = [Event.logVerbose ("Received report for task " ++ msg.taskId),
           Event.saveRecord msg.taskId]
    ∧ Event.updateRelatedInfo msg.taskId
        ∉ (reportResult convertResult cfgToken token msg records).2 := by
  subst hTok
  have hred : reportResult convertResult token token msg records
      = (setRecord records msg.taskId { js with compilation := some msg.progress },
         [Event.logVerbose ("Received report for task " ++ msg.taskId),
          Event.saveRecord msg.taskId]) := by
    simp [reportResult, hType, hFound]
  rw [hred]
  refine ⟨?_, rfl, by simp⟩
  simp [findOneRecord, setRecord]

theorem compiled_updates_only_compilation_witness :
    findOneRecord (reportResult sampleConvert "tok" "tok"
        (sampleMsg ProgressReportType.Compiled)
        [("task1", sampleRecord)]).1 (sampleMsg ProgressReportType.Compiled).taskId
      = some { sampleRecord with compilation := some samplePayload } :=
  (compiled_updates_only_compilation sampleConvert "tok" "tok"
    (sampleMsg ProgressReportType.Compiled) [("task1", sampleRecord)]
    sampleRecord rfl rfl rfl).1

/-- C8: `judge` enqueues exactly one task whose type, param and extraData
are chosen by the problem-definition type — with extraData non-null exactly
for AnswerSubmission, where param is null and extraData holds the file
bytes read from storage — and for AnswerSubmission a failure reading the
file bytes fails the whole call with no task enqueued. -/
theorem judge_enqueues_one_task (readAnswerFile : String → Except String (List Nat))
    (judge_state : SubmissionState) (problem : Problem) (priority : Int)
    (q : List QueueEntry) :
    (∀ err : String, problem.type = "submit-answer" →
      readAnswerFile judge_state.code = Except.error err →
      judge readAnswerFile judge_state problem priority q = Except.error err)
    ∧ (∀ q2 : List QueueEntry,
        judge readAnswerFile judge_state problem priority q = Except.ok q2 →
        ∃ entry : QueueEntry,
          q2 = q ++ [entry]
          ∧ entry.priority = priority
          ∧ entry.data.content.taskId = judge_state.task_id
          ∧ entry.data.content.type = problemTypeFor problem.type
          ∧ (entry.data.content.type = ProblemType.AnswerSubmission →
              entry.data.content.param = none
              ∧ ∃ bytes : List Nat,
                  readAnswerFile judge_state.code = Except.ok bytes
                  ∧ entry.data.extraData = some bytes)
          ∧ (entry.data.content.type ≠ ProblemType.AnswerSubmission →
              entry.data.extraData = none ∧ entry.data.content.param ≠ none)) := by
  constructor
  · intro err hT hR
    have hb : (problem.type == "submit-answer") = true := by simp [hT]
    simp [judge, hb, hR]
  · intro q2 hok
    by_cases h1 : (problem.type == "submit-answer") = true
    · cases hR : readAnswerFile judge_state.code with
      | error e => simp [judge, h1, hR] at hok
      | ok bytes =>
        simp only [judge, h1, if_true, hR, push, Except.ok.injEq] at hok
        refine ⟨⟨⟨⟨judge_state.task_id, toString problem.id,
            ProblemType.AnswerSubmission, priority, none⟩, some bytes⟩, priority⟩,
          hok.symm, rfl, rfl, ?_, ?_, ?_⟩
        · simp [problemTypeFor, h1]
        · intro _
          exact ⟨rfl, bytes, rfl, rfl⟩
        · intro h
          exact absurd rfl h
    · by_cases h2 : (problem.type == "interaction") = true
      · simp only [judge, h1, h2, if_true, if_false, Bool.false_eq_true,
          push, Except.ok.injEq] at hok
        refine ⟨⟨⟨⟨judge_state.task_id, toString problem.id,
            ProblemType.Interaction, priority,
            some (TaskParam.interactionParam judge_state.language judge_state.code
              problem.time_limit problem.memory_limit)⟩, none⟩, priority⟩,
          hok.symm, rfl, rfl, ?_, ?_, ?_⟩
        · simp [problemTypeFor, h1, h2]
        · intro h
          simp at h
        · intro _
          exact ⟨rfl, by simp⟩
      · simp only [judge, h1, h2, if_true, if_false, Bool.false_eq_true,
          push, Except.ok.injEq] at hok
        refine ⟨⟨⟨⟨judge_state.task_id, toString problem.id,
            ProblemType.Standard, priority,
            some (TaskParam.standardParam judge_state.language judge_state.code
              problem.time_limit problem.memory_limit
              (if problem.file_io then some problem.file_io_input_name else none)
              (if problem.file_io then some problem.file_io_output_name else none))⟩,
            none⟩, priority⟩,
          hok.symm, rfl, rfl, ?_, ?_, ?_⟩
        · simp [problemTypeFor, h1, h2]
        · intro h
          simp at h
        · intro _
          exact ⟨rfl, by simp⟩

theorem judge_enqueues_one_task_witness :
    judge (fun _ => Except.error "ENOENT")
      ⟨"task1", "cpp", "codekey"⟩
      ⟨1, "submit-answer", 1000, 256, false, "", ""⟩ 5 [] = Except.error "ENOENT" :=
  (judge_enqueues_one_task (fun _ => Except.error "ENOENT")
    ⟨"task1", "cpp", "codekey"⟩
    ⟨1, "submit-answer", 1000, 256, false, "", ""⟩ 5 []).1 "ENOENT" rfl rfl

end Judger

